import Mathlib

/-!
Shallow embedding of `backend/agent.py`, the single entrypoint of this repository:
a voice agent that validates required environment variables at startup, connects to
a room (audio-only), waits for a remote participant, constructs a realtime model with
a bounded retry loop (3 attempts, fixed 1-second backoff), seeds a chat context with
one assistant message, and launches a multimodal agent session that generates its
opening reply.

The embedding is a deterministic interpreter over a `World` describing the behavior
of the external collaborators (environment mapping, room connect result, participant
wait result, and the model constructor's per-attempt outcome).  Each run produces a
trace of observable events plus a result, so ordering, counting and error-propagation
properties can be stated over traces.
-/

namespace Govi

/-- Turn-detection options passed to the realtime model constructor
(`openai.realtime.ServerVadOptions(threshold=0.6, prefix_padding_ms=200,
silence_duration_ms=500, create_response=True)` in the source).  Fields are in
source order. -/
structure ServerVadOptions where
  threshold : ℚ
  prefix_padding_ms : ℕ
  silence_duration_ms : ℕ
  create_response : Bool
deriving DecidableEq

/-- Configuration bundle of one `openai.realtime.RealtimeModel(...)` construction
call: instructions text, voice, sampling temperature, model identifier and
turn-detection policy, in source order. -/
structure RealtimeModelConfig where
  instructions : String
  voice : String
  temperature : ℚ
  model : String
  turn_detection : ServerVadOptions
deriving DecidableEq

/-- The system-prompt text of the `instructions=` argument (source lines 59-183),
reproduced verbatim including the surrounding newlines and indentation of the
triple-quoted Python literal. -/
def goviInstructions : String :=
  "
            Eres Govi, la asistente de IA conversacional del GovLab con capacidad de voz en tiempo real. Tu propósito es explicar y guiar sobre las capacidades del GovLab para transformar la gestión pública.

            DEFINICIÓN DEL GOVLAB:
            Un laboratorio de innovación dedicado a encontrar soluciones a problemas públicos y fortalecer los procesos de toma de decisiones de política pública, utilizando técnicas, métodos y enfoques basados en:
            - Analítica de datos
            - Co-creación
            - Colaboración intersectorial

            PROPÓSITO FUNDAMENTAL:
            Desarrollar soluciones tangibles a problemas públicos basadas en evidencia, desde un enfoque humanístico que reconoce a la persona humana como el centro de las políticas públicas y decisiones de gobierno.

            OBJETIVOS ESPECÍFICOS:
            1. Comprender los asuntos públicos desde la analítica de datos y la inteligencia artificial
            2. Experimentar e innovar en diferentes técnicas, métodos y enfoques para mejorar la toma de decisiones
            3. Potenciar las capacidades de la academia y su ecosistema de conocimiento e innovación

            METODOLOGÍA DE TRABAJO:
            1. Entendimiento profundo de necesidades del cliente para decisiones estratégicas basadas en datos
            2. Desarrollo de soluciones personalizadas usando IA y nuevas tecnologías
            3. Colaboración con profesores y estudiantes para encontrar soluciones innovadoras

            PORTAFOLIO DETALLADO DE SERVICIOS:

            1. ANALÍTICA Y DESARROLLO DE IA:
            - Plataformas de análisis para gestión de políticas públicas
            - Sistemas de predicción y simulación
            - Análisis de sentimiento y opinión pública
            - Sistemas de gestión de crisis
            - Automatización de interacción ciudadana
            - Análisis geoespacial y planificación urbana
            - Plataformas de gestión de proyectos
            - Comunicación política y análisis electoral
            - Desarrollo de políticas públicas basadas en IA

            2. MEJORA DE EFICIENCIA OPERATIVA:
            - Analítica de datos para optimización de recursos
            - Plataformas inteligentes para PQRS
            - Asistentes virtuales para toma de decisiones
            - Soluciones para gestión presupuestal
            - Sistemas de gestión de recursos humanos
            - Automatización de procesos administrativos
            - Gestión de compras y adquisiciones
            - Plataformas de atención ciudadana

            3. RECOPILACIÓN Y GESTIÓN DE DATOS:
            - Dashboards interactivos
            - Plataformas de planificación territorial
            - Simuladores de decisiones
            - Análisis de seguridad pública
            - Herramientas de recopilación de datos
            - Análisis geoespacial avanzado
            - Monitoreo en tiempo real

            4. ANÁLISIS PREDICTIVO:
            - Servicios de IA para previsión de riesgos
            - Modelos de optimización de políticas
            - Simuladores de aprendizaje automático
            - Modelado de tendencias
            - Minería de datos
            - Predicción en seguridad y crimen
            - Herramientas de predicción en salud pública
            - Soluciones de predicción económica

            5. FORMACIÓN Y CAPACITACIÓN:
            - Curso en Manejo de Crisis con analítica
            - Bootcamp Ciberseguridad de gobierno
            - Curso SECOP para empresas Govtech
            - Diplomado en Analítica para decisiones gubernamentales

            CASOS DE ÉXITO DESTACADOS:
            1. CAResponde:
            - LLM para procesamiento automático de PQRS
            - Ahorro significativo en tiempo y recursos
            - Procesamiento masivo en segundos

            2. LegisCompare:
            - Comparador de documentos legislativos
            - Análisis de diferencias textuales y semánticas
            - Utilizado por el Senado

            3. Govi (Tú misma):
            - IA conversacional con voz en tiempo real
            - Especialista en información del GovLab
            - Interfaz natural y respuestas precisas

            4. PoliciAPP:
            - Consulta en tiempo real de leyes y regulaciones
            - Herramienta para agentes de policía
            - Acceso inmediato a normativa colombiana

            5. Adri:
            - Sistema RAG para análisis de oportunidades
            - Procesamiento de documentos para ventaja competitiva
            - Identificación proactiva de oportunidades de consultoría

            EQUIPO DIRECTIVO:
            - Omar Orstegui
            - Juan Sotelo
            - Samuel Ramirez
            - Tomás Barón
            - Benjamín LLoveras

            RESTRICCIONES Y DIRECTRICES:
            1. Siempre responde en español
            2. Sin respuestas sobre temas fuera del ámbito del GovLab
            3. No generar contenido explícito, ilegal o violento
            4. Enfoque exclusivo en servicios y capacidades del GovLab

            PROTOCOLO DE RESPUESTA:
            1. Identificar la necesidad específica del interlocutor
            2. Vincular con servicios relevantes del GovLab
            3. Proporcionar ejemplos concretos de implementación
            4. Explicar beneficios tangibles y medibles
            5. Referenciar casos de éxito pertinentes
            6. Mantener enfoque en soluciones basadas en datos

            BENEFICIOS CLAVE A COMUNICAR:
            - Transformación digital de la gestión pública
            - Mejora en eficiencia y efectividad
            - Decisiones basadas en datos
            - Optimización de recursos
            - Automatización de procesos
            - Innovación en servicios públicos
"

/-- The configuration content of the `openai.realtime.RealtimeModel(...)` call in
`run_multimodal_agent` (source lines 58-194): the literal arguments of that call. -/
def goviConfig : RealtimeModelConfig :=
  ⟨goviInstructions, "sage", 6/10, "gpt-4o-realtime-preview", ⟨6/10, 200, 500, true⟩⟩

/-- The seed chat message text appended to the `llm.ChatContext()` (source lines
205-209; Python concatenates the two adjacent string literals). -/
def seedChatText : String :=
  "Contexto del Usuario: estas hablando con cliente potencial al que le queremos vender o cerrar negocio con. Saluda al usuario de manera cordial e introduciendo al Govlab"

/-- Observable events of one job run.  `connectOk` marks `ctx.connect` resolving,
`waitCall` marks `ctx.wait_for_participant` being invoked, `constructAttempt i cfg`
marks one `RealtimeModel(...)` construction attempt with the configuration it was
given, `modelReady` marks the `logger.info("Model initialized successfully")` line
reached exactly when construction succeeds, `logWarning n cause` carries the attempt
number shown in the warning message (`attempt + 1`) and the failure cause, and
`agentCreated chat` records the chat context the `MultimodalAgent` is constructed
with. -/
inductive Event where
  | logInfo (msg : String)
  | connectCall
  | connectOk
  | waitCall
  | participantJoined (identity : String)
  | constructAttempt (i : ℕ) (cfg : RealtimeModelConfig)
  | modelReady
  | logWarning (attemptShown : ℕ) (cause : String)
  | sleep (seconds : ℕ)
  | chatAppend (role text : String)
  | agentCreated (chat : List (String × String))
  | agentStart (participant : String)
  | generateReply
  | send (text : String) (allow_interruptions : Bool)
  | logError (msg : String)
deriving DecidableEq

/-- Error taxonomy of the spec, carrying the concrete datum of each source raise:
`configError v` is the `EnvironmentError` naming missing variable `v` (spec:
`ConfigurationError`), `connectionError` a transport failure propagated out of the
entrypoint, `modelInitError cause` the original construction error re-raised after
the retry budget is exhausted (spec: `ModelInitializationError`). -/
inductive AgentError where
  | configError (var : String)
  | connectionError (msg : String)
  | modelInitError (cause : String)
deriving DecidableEq

/-- The required environment variables (source line 30, in source order). -/
def required_env_vars : List String :=
  ["OPENAI_API_KEY", "LIVEKIT_API_KEY", "LIVEKIT_API_SECRET"]

/-- Environment lookup: `os.getenv` over a finite mapping modelled as an
association list. -/
def lookupEnv (env : List (String × String)) (var : String) : Option String :=
  (env.find? (fun p => p.1 == var)).map Prod.snd

/-- Python truthiness of `not os.getenv(var)`: true when the variable is absent or
maps to the empty string. -/
def envVarMissing (env : List (String × String)) (var : String) : Bool :=
  match lookupEnv env var with
  | none => true
  | some s => s == ""

/-- The validation loop of source lines 31-33: walk the required variables in order
and raise on the first one that is missing or empty. -/
def checkEnvList (env : List (String × String)) : List String → Except AgentError Unit
  | [] => Except.ok ()
  | v :: rest =>
    if envVarMissing env v then Except.error (AgentError.configError v)
    else checkEnvList env rest

/-- The first required variable (in the fixed source order) that is missing or
empty, if any. -/
def firstMissingVar (env : List (String × String)) : Option String :=
  required_env_vars.find? (envVarMissing env)

/-- The retry loop body of source lines 56-201, iterating over the remaining
attempt indices of `range(3)`.  `construct i = none` means the constructor call
succeeds on attempt `i`; `construct i = some e` means it raises with cause `e`.
On success the loop logs and breaks; on failure at index 2 (`attempt == 2`) the
original error is re-raised; otherwise a warning with the displayed attempt number
(`attempt + 1`) and the cause is logged, the loop sleeps 1 second and retries with
a freshly constructed configuration.  The `[]` case is unreachable for `range 3`
since index 2 always breaks or raises. -/
def modelRetry (construct : ℕ → Option String) :
    List ℕ → List Event × Except String RealtimeModelConfig
  | [] => ([], Except.error "loop exhausted")
  | i :: rest =>
    match construct i with
    | none =>
      ([Event.constructAttempt i goviConfig, Event.modelReady], Except.ok goviConfig)
    | some e =>
      if i == 2 then
        ([Event.constructAttempt i goviConfig], Except.error e)
      else
        let p := modelRetry construct rest
        (Event.constructAttempt i goviConfig :: Event.logWarning (i + 1) e ::
          Event.sleep 1 :: p.1, p.2)

/-- Embedding of `run_multimodal_agent` (source lines 51-225): run the retry loop;
on exhaustion log the failure and re-raise as `modelInitError`; on success append
the single assistant seed message to a fresh chat context, construct the
`MultimodalAgent` with it, start it against the room and participant, and generate
the opening reply. -/
def run_multimodal_agent (construct : ℕ → Option String) (participant : String) :
    List Event × Except AgentError Unit :=
  match modelRetry construct (List.range 3) with
  | (tr, Except.error e) =>
    (Event.logInfo "Initializing multimodal agent" :: tr ++
      [Event.logError ("Failed to initialize MultimodalAgent: " ++ e)],
     Except.error (AgentError.modelInitError e))
  | (tr, Except.ok _) =>
    (Event.logInfo "Initializing multimodal agent" :: tr ++
      [Event.chatAppend "assistant" seedChatText,
       Event.agentCreated [("assistant", seedChatText)],
       Event.agentStart participant,
       Event.generateReply,
       Event.logInfo "Multimodal agent initialized and started successfully"],
     Except.ok ())

/-- Behavior of the external collaborators for one job: the process environment,
the outcome of `ctx.connect`, the outcome of `ctx.wait_for_participant` (the
participant identity on success), and the per-attempt outcome of the model
constructor (`none` = success, `some cause` = raises). -/
structure World where
  env : List (String × String)
  roomName : String
  connectResult : Except String Unit
  waitResult : Except String String
  construct : ℕ → Option String

/-- Embedding of `entrypoint` (source lines 35-49): connect, wait for a
participant, run the agent; any failure is logged and re-raised. -/
def entrypoint (w : World) : List Event × Except AgentError Unit :=
  let tr0 := [Event.logInfo ("Connecting to room " ++ w.roomName), Event.connectCall]
  match w.connectResult with
  | Except.error msg =>
    (tr0 ++ [Event.logError "Error in entrypoint"],
     Except.error (AgentError.connectionError msg))
  | Except.ok () =>
    let tr1 := tr0 ++ [Event.connectOk, Event.logInfo "Waiting for participant...",
      Event.waitCall]
    match w.waitResult with
    | Except.error msg =>
      (tr1 ++ [Event.logError "Error in entrypoint"],
       Except.error (AgentError.connectionError msg))
    | Except.ok pid =>
      let tr2 := tr1 ++ [Event.participantJoined pid,
        Event.logInfo ("Participant " ++ pid ++ " joined, starting agent...")]
      match run_multimodal_agent w.construct pid with
      | (tr3, Except.error e) =>
        (tr2 ++ tr3 ++ [Event.logError "Error in entrypoint"], Except.error e)
      | (tr3, Except.ok ()) =>
        (tr2 ++ tr3 ++ [Event.logInfo "Agent started successfully"], Except.ok ())

/-- One whole process run: the module-level environment validation (source lines
31-33) runs first and aborts the process before any connection is attempted;
otherwise the job entrypoint runs. -/
def processRun (w : World) : List Event × Except AgentError Unit :=
  match checkEnvList w.env required_env_vars with
  | Except.error e => ([], Except.error e)
  | Except.ok () => entrypoint w

/-- Terminal state of one job, per the spec state machine. -/
inductive JobState where
  | Conversing
  | Failed
deriving DecidableEq

/-- Terminal state of a run: `Conversing` on success, `Failed` on any error. -/
def finalState (w : World) : JobState :=
  match (processRun w).2 with
  | Except.ok _ => JobState.Conversing
  | Except.error _ => JobState.Failed

/-- Modelled from the spec: the literal scripted greeting of the second,
near-duplicate entrypoint variant of this repository, which is not present under
the sources; spec section 8 item 6 fixes its text. -/
def greetingText : String := "Hola, ¿en qué puedo ayudarte hoy?"

/-- Modelled from the spec: the Session Launcher variant A (scripted send) of the
second entrypoint file, absent from the sources.  Per spec sections 4.4 and 8 it is
identical to `run_multimodal_agent` except that after starting the session it sends
the literal greeting with `allow_interruptions=true` instead of asking the model to
generate the opening reply. -/
def run_scripted_agent (construct : ℕ → Option String) (participant : String) :
    List Event × Except AgentError Unit :=
  match modelRetry construct (List.range 3) with
  | (tr, Except.error e) =>
    (Event.logInfo "Initializing multimodal agent" :: tr ++
      [Event.logError ("Failed to initialize MultimodalAgent: " ++ e)],
     Except.error (AgentError.modelInitError e))
  | (tr, Except.ok _) =>
    (Event.logInfo "Initializing multimodal agent" :: tr ++
      [Event.chatAppend "assistant" seedChatText,
       Event.agentCreated [("assistant", seedChatText)],
       Event.agentStart participant,
       Event.send greetingText true,
       Event.logInfo "Multimodal agent initialized and started successfully"],
     Except.ok ())

/-- Modelled from the spec: the entrypoint of the scripted variant, identical to
`entrypoint` but launching `run_scripted_agent`. -/
def scriptedEntrypoint (w : World) : List Event × Except AgentError Unit :=
  let tr0 := [Event.logInfo ("Connecting to room " ++ w.roomName), Event.connectCall]
  match w.connectResult with
  | Except.error msg =>
    (tr0 ++ [Event.logError "Error in entrypoint"],
     Except.error (AgentError.connectionError msg))
  | Except.ok () =>
    let tr1 := tr0 ++ [Event.connectOk, Event.logInfo "Waiting for participant...",
      Event.waitCall]
    match w.waitResult with
    | Except.error msg =>
      (tr1 ++ [Event.logError "Error in entrypoint"],
       Except.error (AgentError.connectionError msg))
    | Except.ok pid =>
      let tr2 := tr1 ++ [Event.participantJoined pid,
        Event.logInfo ("Participant " ++ pid ++ " joined, starting agent...")]
      match run_scripted_agent w.construct pid with
      | (tr3, Except.error e) =>
        (tr2 ++ tr3 ++ [Event.logError "Error in entrypoint"], Except.error e)
      | (tr3, Except.ok ()) =>
        (tr2 ++ tr3 ++ [Event.logInfo "Agent started successfully"], Except.ok ())

/-- Modelled from the spec: a whole process run of the scripted variant. -/
def scriptedProcessRun (w : World) : List Event × Except AgentError Unit :=
  match checkEnvList w.env required_env_vars with
  | Except.error e => ([], Except.error e)
  | Except.ok () => scriptedEntrypoint w

/-- Terminal state of a scripted-variant run. -/
def scriptedFinalState (w : World) : JobState :=
  match (scriptedProcessRun w).2 with
  | Except.ok _ => JobState.Conversing
  | Except.error _ => JobState.Failed

/-- Event classifiers used for counting. -/
def isConstructAttempt : Event → Bool
  | Event.constructAttempt _ _ => true
  | _ => false

def isWarning : Event → Bool
  | Event.logWarning _ _ => true
  | _ => false

def isSleep : Event → Bool
  | Event.sleep _ => true
  | _ => false

def isLogError : Event → Bool
  | Event.logError _ => true
  | _ => false

def isSend : Event → Bool
  | Event.send _ _ => true
  | _ => false

def isGenerateReply : Event → Bool
  | Event.generateReply => true
  | _ => false

/-- Number of model construction attempts in a trace. -/
def countAttempts (tr : List Event) : ℕ := tr.countP isConstructAttempt

/-- Number of logged warnings in a trace. -/
def countWarnings (tr : List Event) : ℕ := tr.countP isWarning

/-- Number of backoff sleeps in a trace. -/
def countSleeps (tr : List Event) : ℕ := tr.countP isSleep

/-- Number of logged (fatal) errors in a trace. -/
def countErrors (tr : List Event) : ℕ := tr.countP isLogError

/-- Number of scripted sends in a trace. -/
def countSends (tr : List Event) : ℕ := tr.countP isSend

/-- Number of model-generated replies in a trace. -/
def countReplies (tr : List Event) : ℕ := tr.countP isGenerateReply

/-- Events that the retry loop itself can emit. -/
def isRetryEvent : Event → Bool
  | Event.constructAttempt _ _ => true
  | Event.logWarning _ _ => true
  | Event.sleep _ => true
  | Event.modelReady => true
  | _ => false

lemma range_three : List.range 3 = [0, 1, 2] := by decide

lemma modelRetry_shape_s0 (c : ℕ → Option String) (h0 : c 0 = none) :
    modelRetry c (List.range 3) =
      ([Event.constructAttempt 0 goviConfig, Event.modelReady], Except.ok goviConfig) := by
  rw [range_three]
  simp [modelRetry, h0]

lemma modelRetry_shape_f0s1 (c : ℕ → Option String) (e0 : String)
    (h0 : c 0 = some e0) (h1 : c 1 = none) :
    modelRetry c (List.range 3) =
      ([Event.constructAttempt 0 goviConfig, Event.logWarning 1 e0, Event.sleep 1,
        Event.constructAttempt 1 goviConfig, Event.modelReady], Except.ok goviConfig) := by
  rw [range_three]
  simp [modelRetry, h0, h1]

lemma modelRetry_shape_f01s2 (c : ℕ → Option String) (e0 e1 : String)
    (h0 : c 0 = some e0) (h1 : c 1 = some e1) (h2 : c 2 = none) :
    modelRetry c (List.range 3) =
      ([Event.constructAttempt 0 goviConfig, Event.logWarning 1 e0, Event.sleep 1,
        Event.constructAttempt 1 goviConfig, Event.logWarning 2 e1, Event.sleep 1,
        Event.constructAttempt 2 goviConfig, Event.modelReady], Except.ok goviConfig) := by
  rw [range_three]
  simp [modelRetry, h0, h1, h2]

lemma modelRetry_shape_f012 (c : ℕ → Option String) (e0 e1 e2 : String)
    (h0 : c 0 = some e0) (h1 : c 1 = some e1) (h2 : c 2 = some e2) :
    modelRetry c (List.range 3) =
      ([Event.constructAttempt 0 goviConfig, Event.logWarning 1 e0, Event.sleep 1,
        Event.constructAttempt 1 goviConfig, Event.logWarning 2 e1, Event.sleep 1,
        Event.constructAttempt 2 goviConfig], Except.error e2) := by
  rw [range_three]
  simp [modelRetry, h0, h1, h2]

lemma modelRetry_events (c : ℕ → Option String) :
    ∀ l, ∀ e ∈ (modelRetry c l).1, isRetryEvent e = true := by
  intro l
  induction l with
  | nil => simp [modelRetry]
  | cons i rest ih =>
    intro e he
    rcases hc : c i with _ | cause
    · simp only [modelRetry, hc, List.mem_cons, List.not_mem_nil, or_false] at he
      rcases he with rfl | rfl <;> rfl
    · by_cases h2 : i == 2
      · simp only [modelRetry, hc, h2, if_pos, List.mem_cons, List.not_mem_nil,
          or_false] at he
        subst he; rfl
      · simp only [modelRetry, hc, h2, Bool.false_eq_true, if_neg, not_false_iff,
          List.mem_cons] at he
        rcases he with rfl | rfl | rfl | h
        · rfl
        · rfl
        · rfl
        · exact ih e h

lemma not_mem_modelRetry (c : ℕ → Option String) (l : List ℕ) {e : Event}
    (h : isRetryEvent e = false) : e ∉ (modelRetry c l).1 := by
  intro he
  have := modelRetry_events c l e he
  rw [this] at h
  cases h

lemma modelRetry_config (c : ℕ → Option String) :
    ∀ l i cfg, Event.constructAttempt i cfg ∈ (modelRetry c l).1 → cfg = goviConfig := by
  intro l
  induction l with
  | nil => simp [modelRetry]
  | cons j rest ih =>
    intro i cfg he
    rcases hc : c j with _ | cause
    · simp only [modelRetry, hc, List.mem_cons, List.not_mem_nil, or_false] at he
      rcases he with h | h
      · injection h with h1 h2
      · exact Event.noConfusion h
    · by_cases h2 : j == 2
      · simp only [modelRetry, hc, h2, if_pos, List.mem_cons, List.not_mem_nil,
          or_false] at he
        injection he with h1 h2
      · simp only [modelRetry, hc, h2, Bool.false_eq_true, if_neg, not_false_iff,
          List.mem_cons] at he
        rcases he with h | h | h | h
        · injection h with h1 h2
        · exact Event.noConfusion h
        · exact Event.noConfusion h
        · exact ih i cfg h

lemma mem_take_of_getElem_append {α : Type} [DecidableEq α] {a b : α} {l₁ l₂ : List α}
    (hb : b ∉ l₁) (ha : a ∈ l₁) :
    ∀ n, (l₁ ++ l₂)[n]? = some b → a ∈ (l₁ ++ l₂).take n := by
  intro n hn
  rcases Nat.lt_or_ge n l₁.length with h | h
  · exfalso
    rw [List.getElem?_append_left h] at hn
    exact hb (List.getElem?_mem hn)
  · rw [List.take_append_eq_append_take, List.take_of_length_le h]
    exact List.mem_append_left _ ha

lemma mem_take_of_not_mem {α : Type} {a b : α} {l : List α} (hb : b ∉ l) :
    ∀ n, l[n]? = some b → a ∈ l.take n := by
  intro n hn
  exact absurd (List.getElem?_mem hn) hb

lemma split_eq_of_unique {α : Type} (x : α) :
    ∀ (P l₁ : List α) (S l₂ : List α), x ∉ P → x ∉ S →
      P ++ x :: S = l₁ ++ x :: l₂ → P = l₁ ∧ S = l₂ := by
  intro P
  induction P with
  | nil =>
    intro l₁ S l₂ _ hS h
    cases l₁ with
    | nil =>
      simp only [List.nil_append] at h
      exact ⟨rfl, by injection h⟩
    | cons b l₁ =>
      simp only [List.nil_append, List.cons_append] at h
      injection h with hb ht
      exact absurd (ht ▸ List.mem_append_right l₁ (List.mem_cons_self x l₂)) hS
  | cons a P ih =>
    intro l₁ S l₂ hP hS h
    cases l₁ with
    | nil =>
      simp only [List.cons_append, List.nil_append] at h
      injection h with hb _
      exact absurd (hb ▸ List.mem_cons_self a P) hP
    | cons b l₁ =>
      simp only [List.cons_append] at h
      injection h with hb ht
      have := ih l₁ S l₂ (fun hx => hP (List.mem_cons_of_mem a hx)) hS ht
      exact ⟨by rw [hb, this.1], this.2⟩

/-- Constructor behavior that fails on the first attempt and succeeds afterwards. -/
def oneFailConstruct : ℕ → Option String :=
  fun i => if i == 0 then some "transient provisioning failure" else none

/-- Constructor behavior that fails on every attempt with the same cause. -/
def allFailConstruct : ℕ → Option String := fun _ => some "provider unavailable"

/-- C1: the initializer makes exactly 3 total attempts (indices 0, 1, 2).  For
every model constructor that fails exactly `k` times and then succeeds (`k` in
`{0, 1, 2}`), `run_multimodal_agent` succeeds after `k + 1` construction attempts
with `k` logged warnings and zero logged fatal errors; for every constructor that
fails on all three attempts, an error is raised and exactly 3 attempts were made,
not 4 and not 2. -/
theorem retry_attempt_bound (construct : ℕ → Option String) (pid : String) :
    (∀ k, k < 3 → (∀ i, i < k → (construct i).isSome) → construct k = none →
      (run_multimodal_agent construct pid).2 = Except.ok () ∧
      countAttempts (run_multimodal_agent construct pid).1 = k + 1 ∧
      countWarnings (run_multimodal_agent construct pid).1 = k ∧
      countErrors (run_multimodal_agent construct pid).1 = 0) ∧
    ((∀ i, i < 3 → (construct i).isSome) →
      (∃ e, (run_multimodal_agent construct pid).2 =
        Except.error (AgentError.modelInitError e)) ∧
      countAttempts (run_multimodal_agent construct pid).1 = 3) := by
  constructor
  · intro k hk hfail hsucc
    interval_cases k
    · have hs := modelRetry_shape_s0 construct hsucc
      simp only [run_multimodal_agent, hs]
      refine ⟨trivial, ?_, ?_, ?_⟩ <;>
        simp [countAttempts, countWarnings, countErrors, isConstructAttempt,
          isWarning, isLogError, List.countP_cons, List.countP_nil]
    · rcases Option.isSome_iff_exists.1 (hfail 0 (by omega)) with ⟨e0, he0⟩
      have hs := modelRetry_shape_f0s1 construct e0 he0 hsucc
      simp only [run_multimodal_agent, hs]
      refine ⟨trivial, ?_, ?_, ?_⟩ <;>
        simp [countAttempts, countWarnings, countErrors, isConstructAttempt,
          isWarning, isLogError, List.countP_cons, List.countP_nil]
    · rcases Option.isSome_iff_exists.1 (hfail 0 (by omega)) with ⟨e0, he0⟩
      rcases Option.isSome_iff_exists.1 (hfail 1 (by omega)) with ⟨e1, he1⟩
      have hs := modelRetry_shape_f01s2 construct e0 e1 he0 he1 hsucc
      simp only [run_multimodal_agent, hs]
      refine ⟨trivial, ?_, ?_, ?_⟩ <;>
        simp [countAttempts, countWarnings, countErrors, isConstructAttempt,
          isWarning, isLogError, List.countP_cons, List.countP_nil]
  · intro hfail
    rcases Option.isSome_iff_exists.1 (hfail 0 (by omega)) with ⟨e0, he0⟩
    rcases Option.isSome_iff_exists.1 (hfail 1 (by omega)) with ⟨e1, he1⟩
    rcases Option.isSome_iff_exists.1 (hfail 2 (by omega)) with ⟨e2, he2⟩
    have hs := modelRetry_shape_f012 construct e0 e1 e2 he0 he1 he2
    simp only [run_multimodal_agent, hs]
    refine ⟨⟨e2, rfl⟩, ?_⟩
    simp [countAttempts, isConstructAttempt, List.countP_cons, List.countP_nil]

/-- Witness for `retry_attempt_bound`: a constructor failing exactly once, then
succeeding, observed at `k = 1`, plus the all-fail branch at a constructor that
always fails. -/
theorem retry_attempt_bound_witness :
    ((run_multimodal_agent oneFailConstruct "user-42").2 = Except.ok () ∧
      countAttempts (run_multimodal_agent oneFailConstruct "user-42").1 = 2 ∧
      countWarnings (run_multimodal_agent oneFailConstruct "user-42").1 = 1 ∧
      countErrors (run_multimodal_agent oneFailConstruct "user-42").1 = 0) ∧
    ((∃ e, (run_multimodal_agent allFailConstruct "user-42").2 =
        Except.error (AgentError.modelInitError e)) ∧
      countAttempts (run_multimodal_agent allFailConstruct "user-42").1 = 3) :=
  ⟨(retry_attempt_bound oneFailConstruct "user-42").1 1 (by omega)
      (fun i hi => by interval_cases i; rfl) rfl,
    (retry_attempt_bound allFailConstruct "user-42").2
      (fun i _ => rfl)⟩

/-- C2: when model construction fails and the attempt count has reached the
configured maximum of 3 (the check `attempt == 2` on the last index), the original
error of that final attempt is re-raised as the fatal model-initialization error,
and no further retries happen: exactly 3 attempts appear in the trace. -/
theorem final_attempt_reraises (construct : ℕ → Option String) (pid : String)
    (e0 e1 e2 : String) (h0 : construct 0 = some e0) (h1 : construct 1 = some e1)
    (h2 : construct 2 = some e2) :
    (run_multimodal_agent construct pid).2 =
      Except.error (AgentError.modelInitError e2) ∧
    countAttempts (run_multimodal_agent construct pid).1 = 3 := by
  have hs := modelRetry_shape_f012 construct e0 e1 e2 h0 h1 h2
  simp only [run_multimodal_agent, hs]
  refine ⟨trivial, ?_⟩
  simp [countAttempts, isConstructAttempt, List.countP_cons, List.countP_nil]

/-- Witness for `final_attempt_reraises` at a concrete always-failing
constructor. -/
theorem final_attempt_reraises_witness :
    (run_multimodal_agent allFailConstruct "user-42").2 =
      Except.error (AgentError.modelInitError "provider unavailable") ∧
    countAttempts (run_multimodal_agent allFailConstruct "user-42").1 = 3 :=
  final_attempt_reraises allFailConstruct "user-42" _ _ _ rfl rfl rfl

lemma checkEnvList_error_of_find (env : List (String × String)) :
    ∀ l v, l.find? (envVarMissing env) = some v →
      checkEnvList env l = Except.error (AgentError.configError v) := by
  intro l
  induction l with
  | nil =>
    intro v hv
    cases hv
  | cons a l ih =>
    intro v hv
    by_cases ha : envVarMissing env a
    · rw [List.find?_cons_of_pos l ha] at hv
      injection hv with hv
      subst hv
      simp [checkEnvList, ha]
    · rw [List.find?_cons_of_neg l ha] at hv
      have ha' : envVarMissing env a = false := by simpa using ha
      simp only [checkEnvList, ha', Bool.false_eq_true, if_false]
      exact ih v hv

lemma checkEnvList_ok (env : List (String × String)) :
    ∀ l, (∀ v ∈ l, envVarMissing env v = false) → checkEnvList env l = Except.ok () := by
  intro l
  induction l with
  | nil => intro _; rfl
  | cons a l ih =>
    intro h
    have ha := h a (List.mem_cons_self a l)
    simp only [checkEnvList, ha, Bool.false_eq_true, if_false]
    exact ih (fun v hv => h v (List.mem_cons_of_mem a hv))

/-- C3: for every environment mapping in which some required variable is missing or
empty, startup validation fails with a configuration error naming the first missing
variable (in the fixed source order, with no earlier required variable missing),
and no connector method (`connect`, `waitForParticipant`) is ever invoked in that
run; if every required variable maps to a non-empty value, validation succeeds. -/
theorem env_validator_correct (w : World) :
    (∀ v, firstMissingVar w.env = some v →
      (processRun w).2 = Except.error (AgentError.configError v) ∧
      envVarMissing w.env v = true ∧
      (∃ pre post, required_env_vars = pre ++ v :: post ∧
        ∀ u ∈ pre, envVarMissing w.env u = false) ∧
      Event.connectCall ∉ (processRun w).1 ∧
      Event.waitCall ∉ (processRun w).1) ∧
    ((∀ v ∈ required_env_vars, envVarMissing w.env v = false) →
      checkEnvList w.env required_env_vars = Except.ok ()) ∧
    ((∃ v ∈ required_env_vars, envVarMissing w.env v = true) →
      ∃ v, firstMissingVar w.env = some v) := by
  refine ⟨?_, checkEnvList_ok w.env required_env_vars, ?_⟩
  · intro v hv
    have herr := checkEnvList_error_of_find w.env required_env_vars v hv
    have hrun : processRun w = ([], Except.error (AgentError.configError v)) := by
      simp [processRun, herr]
    rcases List.find?_eq_some.1 hv with ⟨hp, pre, post, heq, hpre⟩
    refine ⟨by rw [hrun], hp, ⟨pre, post, heq, ?_⟩, by simp [hrun], by simp [hrun]⟩
    intro u hu
    simpa using hpre u hu
  · intro hex
    rcases hex with ⟨v, hv, hmiss⟩
    have : (required_env_vars.find? (envVarMissing w.env)).isSome :=
      List.find?_isSome.2 ⟨v, hv, hmiss⟩
    exact Option.isSome_iff_exists.1 this

/-- A world whose environment has the language-model key set but the transport key
empty and the transport secret absent. -/
def badEnvWorld : World :=
  ⟨[("OPENAI_API_KEY", "sk-test"), ("LIVEKIT_API_KEY", "")], "room-1", Except.ok (),
    Except.ok "user-42", fun _ => none⟩

/-- Witness for `env_validator_correct`: with the transport key empty, validation
fails naming exactly `LIVEKIT_API_KEY` and no connector method is invoked. -/
theorem env_validator_correct_witness :
    (processRun badEnvWorld).2 =
      Except.error (AgentError.configError "LIVEKIT_API_KEY") ∧
    envVarMissing badEnvWorld.env "LIVEKIT_API_KEY" = true ∧
    Event.connectCall ∉ (processRun badEnvWorld).1 ∧
    Event.waitCall ∉ (processRun badEnvWorld).1 :=
  have h := (env_validator_correct badEnvWorld).1 "LIVEKIT_API_KEY" (by decide)
  ⟨h.1, h.2.1, h.2.2.2.1, h.2.2.2.2⟩

lemma modelRetry_ok_ready (c : ℕ → Option String) :
    ∀ l m, (modelRetry c l).2 = Except.ok m →
      Event.modelReady ∈ (modelRetry c l).1 := by
  intro l
  induction l with
  | nil =>
    intro m hm
    simp [modelRetry] at hm
  | cons i rest ih =>
    intro m hm
    rcases hc : c i with _ | cause
    · simp [modelRetry, hc]
    · by_cases h2 : i == 2
      · simp only [modelRetry, hc, h2, if_pos] at hm
        exact Except.noConfusion hm
      · simp only [modelRetry, hc, h2, Bool.false_eq_true, if_neg,
          not_false_iff] at hm ⊢
        exact List.mem_cons_of_mem _ (List.mem_cons_of_mem _
          (List.mem_cons_of_mem _ (ih m hm)))

/-- A fully healthy world: environment complete, transport succeeds, participant
"user-42" arrives, and the model constructor succeeds immediately. -/
def goodWorld : World :=
  ⟨[("OPENAI_API_KEY", "sk-test"), ("LIVEKIT_API_KEY", "lk-key"),
    ("LIVEKIT_API_SECRET", "lk-secret")], "demo-room", Except.ok (),
    Except.ok "user-42", fun _ => none⟩

/-- C4: in every run of the pipeline, `waitForParticipant` is never invoked before
`connect` resolves (every `waitCall` in the trace is preceded by a `connectOk`),
and the session launch (`agent.start`, binding model, room and participant) is
never invoked before both a participant handle and a model handle exist. -/
theorem pipeline_ordering (w : World) :
    (∀ n, (processRun w).1[n]? = some Event.waitCall →
      Event.connectOk ∈ (processRun w).1.take n) ∧
    (∀ n pid, (processRun w).1[n]? = some (Event.agentStart pid) →
      Event.participantJoined pid ∈ (processRun w).1.take n ∧
      Event.modelReady ∈ (processRun w).1.take n) := by
  rcases henv : checkEnvList w.env required_env_vars with e | u
  · have htr : (processRun w).1 = [] := by simp [processRun, henv]
    rw [htr]
    exact ⟨fun n hn => by simp at hn, fun n pid hn => by simp at hn⟩
  · cases u
    rcases hc : w.connectResult with msg | u2
    · have htr : (processRun w).1 =
          [Event.logInfo ("Connecting to room " ++ w.roomName), Event.connectCall,
           Event.logError "Error in entrypoint"] := by
        simp [processRun, henv, entrypoint, hc]
      rw [htr]
      constructor
      · intro n hn
        have := List.getElem?_mem hn
        simp at this
      · intro n pid hn
        have := List.getElem?_mem hn
        simp at this
    · cases u2
      rcases hwr : w.waitResult with msg | pid0
      · have htr : (processRun w).1 =
            [Event.logInfo ("Connecting to room " ++ w.roomName), Event.connectCall,
             Event.connectOk, Event.logInfo "Waiting for participant..."] ++
            [Event.waitCall, Event.logError "Error in entrypoint"] := by
          simp [processRun, henv, entrypoint, hc, hwr]
        rw [htr]
        constructor
        · intro n hn
          exact mem_take_of_getElem_append (by simp) (by simp) n hn
        · intro n pid hn
          have := List.getElem?_mem hn
          simp at this
      · rcases hm : modelRetry w.construct (List.range 3) with ⟨mr, res⟩
        have hmr_no : ∀ p, Event.agentStart p ∉ mr := by
          intro p
          have h5 := @not_mem_modelRetry w.construct (List.range 3)
            (Event.agentStart p) rfl
          rw [hm] at h5
          exact h5
        rcases res with cause | m
        · have htr : (processRun w).1 =
              [Event.logInfo ("Connecting to room " ++ w.roomName), Event.connectCall,
               Event.connectOk, Event.logInfo "Waiting for participant..."] ++
              Event.waitCall :: Event.participantJoined pid0 ::
                Event.logInfo ("Participant " ++ pid0 ++ " joined, starting agent...") ::
                Event.logInfo "Initializing multimodal agent" :: (mr ++
                [Event.logError ("Failed to initialize MultimodalAgent: " ++ cause),
                 Event.logError "Error in entrypoint"]) := by
            simp [processRun, henv, entrypoint, hc, hwr, run_multimodal_agent, hm]
          constructor
          · intro n hn
            rw [htr] at hn ⊢
            exact mem_take_of_getElem_append (by simp) (by simp) n hn
          · intro n pid hn
            have hnot : Event.agentStart pid ∉ (processRun w).1 := by
              rw [htr]
              simp [hmr_no pid]
            exact ⟨mem_take_of_not_mem hnot n hn, mem_take_of_not_mem hnot n hn⟩
        · have hready : Event.modelReady ∈ mr := by
            have h6 := modelRetry_ok_ready w.construct (List.range 3) m (by rw [hm])
            rw [hm] at h6
            exact h6
          have htr : (processRun w).1 =
              [Event.logInfo ("Connecting to room " ++ w.roomName), Event.connectCall,
               Event.connectOk, Event.logInfo "Waiting for participant..."] ++
              Event.waitCall :: Event.participantJoined pid0 ::
                Event.logInfo ("Participant " ++ pid0 ++ " joined, starting agent...") ::
                Event.logInfo "Initializing multimodal agent" :: (mr ++
                [Event.chatAppend "assistant" seedChatText,
                 Event.agentCreated [("assistant", seedChatText)],
                 Event.agentStart pid0, Event.generateReply,
                 Event.logInfo "Multimodal agent initialized and started successfully",
                 Event.logInfo "Agent started successfully"]) := by
            simp [processRun, henv, entrypoint, hc, hwr, run_multimodal_agent, hm]
          constructor
          · intro n hn
            rw [htr] at hn ⊢
            exact mem_take_of_getElem_append (by simp) (by simp) n hn
          · intro n pid hn
            have hmem := List.getElem?_mem hn
            rw [htr] at hmem
            simp only [List.mem_append, List.mem_cons, List.not_mem_nil, or_false,
              hmr_no pid] at hmem
            have hpid : pid = pid0 := by
              rcases hmem with h | h <;> simp_all
            subst hpid
            have htr2 : (processRun w).1 =
                ([Event.logInfo ("Connecting to room " ++ w.roomName),
                  Event.connectCall, Event.connectOk,
                  Event.logInfo "Waiting for participant...", Event.waitCall,
                  Event.participantJoined pid,
                  Event.logInfo ("Participant " ++ pid ++ " joined, starting agent..."),
                  Event.logInfo "Initializing multimodal agent"] ++ mr ++
                 [Event.chatAppend "assistant" seedChatText,
                  Event.agentCreated [("assistant", seedChatText)]]) ++
                Event.agentStart pid ::
                [Event.generateReply,
                 Event.logInfo "Multimodal agent initialized and started successfully",
                 Event.logInfo "Agent started successfully"] := by
              rw [htr]
              simp
            rw [htr2] at hn ⊢
            refine ⟨mem_take_of_getElem_append ?_ ?_ n hn,
              mem_take_of_getElem_append ?_ ?_ n hn⟩
            · simp [hmr_no pid]
            · simp
            · simp [hmr_no pid]
            · simp [hready]

/-- Witness for `pipeline_ordering` on the healthy world: `waitCall` sits at index
4 with `connectOk` before it, and `agentStart` sits at index 12 with the
participant and the model handle before it. -/
theorem pipeline_ordering_witness :
    Event.connectOk ∈ ((processRun goodWorld).1.take 4) ∧
    (Event.participantJoined "user-42" ∈ ((processRun goodWorld).1.take 12) ∧
      Event.modelReady ∈ ((processRun goodWorld).1.take 12)) :=
  ⟨(pipeline_ordering goodWorld).1 4 (by decide),
   (pipeline_ordering goodWorld).2 12 "user-42" (by decide)⟩

/-- The end-to-end scenario world of the spec: environment fully populated,
connector succeeds, wait-for-participant returns "user-42", and the model
constructor fails once, then succeeds. -/
def scenarioWorld : World :=
  ⟨[("OPENAI_API_KEY", "sk-test"), ("LIVEKIT_API_KEY", "lk-key"),
    ("LIVEKIT_API_SECRET", "lk-secret")], "demo-room", Except.ok (),
    Except.ok "user-42", oneFailConstruct⟩

/-- C5 (scripted variant, modelled from the spec): in the end-to-end success
scenario the run ends in the terminal state `Conversing`, logs exactly 1 warning
and 0 fatal errors, and invokes send exactly once, with the literal greeting text
and `allow_interruptions = true`. -/
theorem scripted_success_scenario :
    scriptedFinalState scenarioWorld = JobState.Conversing ∧
    countWarnings (scriptedProcessRun scenarioWorld).1 = 1 ∧
    countErrors (scriptedProcessRun scenarioWorld).1 = 0 ∧
    countSends (scriptedProcessRun scenarioWorld).1 = 1 ∧
    Event.send "Hola, ¿en qué puedo ayudarte hoy?" true ∈
      (scriptedProcessRun scenarioWorld).1 := by
  refine ⟨rfl, rfl, rfl, rfl, ?_⟩
  decide

lemma isSend_retry_false : ∀ e, isRetryEvent e = true → isSend e = false := by
  intro e
  cases e <;> simp [isRetryEvent, isSend]

lemma isGenerateReply_retry_false :
    ∀ e, isRetryEvent e = true → isGenerateReply e = false := by
  intro e
  cases e <;> simp [isRetryEvent, isGenerateReply]

lemma countP_modelRetry_eq_zero (c : ℕ → Option String) (l : List ℕ)
    (p : Event → Bool) (hp : ∀ e, isRetryEvent e = true → p e = false) :
    (modelRetry c l).1.countP p = 0 :=
  List.countP_eq_zero.2 (fun e he => by
    rw [hp e (modelRetry_events c l e he)]
    exact Bool.false_ne_true)

/-- C6: on every success path of a job, exactly one of the two turn-starter
behaviors, scripted send or model-generated reply, executes: the generated-reply
entrypoint performs exactly one `generate_reply` and no send, the scripted variant
exactly one send and no `generate_reply` — never both, never neither. -/
theorem turn_starter_exclusive (w : World) :
    ((processRun w).2 = Except.ok () →
      countSends (processRun w).1 + countReplies (processRun w).1 = 1 ∧
      countReplies (processRun w).1 = 1) ∧
    ((scriptedProcessRun w).2 = Except.ok () →
      countSends (scriptedProcessRun w).1 + countReplies (scriptedProcessRun w).1 = 1 ∧
      countSends (scriptedProcessRun w).1 = 1) := by
  have hsends : ∀ l, (modelRetry w.construct (List.range 3)).1 = l →
      l.countP isSend = 0 ∧ l.countP isGenerateReply = 0 := by
    intro l hl
    refine ⟨?_, ?_⟩ <;> rw [← hl]
    · exact countP_modelRetry_eq_zero w.construct (List.range 3) isSend
        isSend_retry_false
    · exact countP_modelRetry_eq_zero w.construct (List.range 3) isGenerateReply
        isGenerateReply_retry_false
  constructor
  · intro hok
    rcases henv : checkEnvList w.env required_env_vars with e | u
    · simp [processRun, henv] at hok
    · cases u
      rcases hc : w.connectResult with msg | u2
      · simp [processRun, henv, entrypoint, hc] at hok
      · cases u2
        rcases hwr : w.waitResult with msg | pid0
        · simp [processRun, henv, entrypoint, hc, hwr] at hok
        · rcases hm : modelRetry w.construct (List.range 3) with ⟨mr, res⟩
          obtain ⟨hmr1, hmr2⟩ := hsends mr (by rw [hm])
          rcases res with cause | m
          · simp [processRun, henv, entrypoint, hc, hwr, run_multimodal_agent,
              hm] at hok
          · constructor <;>
              simp [processRun, henv, entrypoint, hc, hwr, run_multimodal_agent,
                hm, countSends, countReplies, List.countP_append, List.countP_cons,
                isSend, isGenerateReply, hmr1, hmr2]
  · intro hok
    rcases henv : checkEnvList w.env required_env_vars with e | u
    · simp [scriptedProcessRun, henv] at hok
    · cases u
      rcases hc : w.connectResult with msg | u2
      · simp [scriptedProcessRun, henv, scriptedEntrypoint, hc] at hok
      · cases u2
        rcases hwr : w.waitResult with msg | pid0
        · simp [scriptedProcessRun, henv, scriptedEntrypoint, hc, hwr] at hok
        · rcases hm : modelRetry w.construct (List.range 3) with ⟨mr, res⟩
          obtain ⟨hmr1, hmr2⟩ := hsends mr (by rw [hm])
          rcases res with cause | m
          · simp [scriptedProcessRun, henv, scriptedEntrypoint, hc, hwr,
              run_scripted_agent, hm] at hok
          · constructor <;>
              simp [scriptedProcessRun, henv, scriptedEntrypoint, hc, hwr,
                run_scripted_agent, hm, countSends, countReplies,
                List.countP_append, List.countP_cons, isSend, isGenerateReply,
                hmr1, hmr2]

/-- Witness for `turn_starter_exclusive` on the healthy world in both variants. -/
theorem turn_starter_exclusive_witness :
    (countSends (processRun goodWorld).1 + countReplies (processRun goodWorld).1 = 1 ∧
      countReplies (processRun goodWorld).1 = 1) ∧
    (countSends (scriptedProcessRun goodWorld).1 +
        countReplies (scriptedProcessRun goodWorld).1 = 1 ∧
      countSends (scriptedProcessRun goodWorld).1 = 1) :=
  ⟨(turn_starter_exclusive goodWorld).1 rfl,
   (turn_starter_exclusive goodWorld).2 rfl⟩

/-- C7: whenever the model constructor fails on all 3 attempts in a run that
reaches the initializer, the job ends in the terminal `Failed` state with the
model-initialization error raised, and the session launch (agent start, and either
turn starter) is never invoked. -/
theorem all_attempts_fail_no_launch (w : World) (pid : String)
    (henv : checkEnvList w.env required_env_vars = Except.ok ())
    (hc : w.connectResult = Except.ok ())
    (hw : w.waitResult = Except.ok pid)
    (hf : ∀ i, i < 3 → (w.construct i).isSome) :
    finalState w = JobState.Failed ∧
    (∃ e, (processRun w).2 = Except.error (AgentError.modelInitError e)) ∧
    (∀ p, Event.agentStart p ∉ (processRun w).1) ∧
    Event.generateReply ∉ (processRun w).1 ∧
    (∀ t b, Event.send t b ∉ (processRun w).1) := by
  rcases Option.isSome_iff_exists.1 (hf 0 (by omega)) with ⟨e0, he0⟩
  rcases Option.isSome_iff_exists.1 (hf 1 (by omega)) with ⟨e1, he1⟩
  rcases Option.isSome_iff_exists.1 (hf 2 (by omega)) with ⟨e2, he2⟩
  have hm := modelRetry_shape_f012 w.construct e0 e1 e2 he0 he1 he2
  have hres : (processRun w).2 = Except.error (AgentError.modelInitError e2) := by
    simp [processRun, henv, entrypoint, hc, hw, run_multimodal_agent, hm]
  have htr : (processRun w).1 =
      [Event.logInfo ("Connecting to room " ++ w.roomName), Event.connectCall,
       Event.connectOk, Event.logInfo "Waiting for participant...", Event.waitCall,
       Event.participantJoined pid,
       Event.logInfo ("Participant " ++ pid ++ " joined, starting agent..."),
       Event.logInfo "Initializing multimodal agent",
       Event.constructAttempt 0 goviConfig, Event.logWarning 1 e0, Event.sleep 1,
       Event.constructAttempt 1 goviConfig, Event.logWarning 2 e1, Event.sleep 1,
       Event.constructAttempt 2 goviConfig,
       Event.logError ("Failed to initialize MultimodalAgent: " ++ e2),
       Event.logError "Error in entrypoint"] := by
    simp [processRun, henv, entrypoint, hc, hw, run_multimodal_agent, hm]
  refine ⟨?_, ⟨e2, hres⟩, ?_, ?_, ?_⟩
  · simp [finalState, hres]
  · intro p
    rw [htr]
    simp
  · rw [htr]
    simp
  · intro t b
    rw [htr]
    simp

/-- A world whose model constructor fails on every attempt while everything else is
healthy. -/
def allFailWorld : World :=
  ⟨[("OPENAI_API_KEY", "sk-test"), ("LIVEKIT_API_KEY", "lk-key"),
    ("LIVEKIT_API_SECRET", "lk-secret")], "demo-room", Except.ok (),
    Except.ok "user-42", allFailConstruct⟩

/-- Witness for `all_attempts_fail_no_launch` at the concrete all-fail world. -/
theorem all_attempts_fail_no_launch_witness :
    finalState allFailWorld = JobState.Failed ∧
    (∃ e, (processRun allFailWorld).2 = Except.error (AgentError.modelInitError e)) ∧
    (∀ p, Event.agentStart p ∉ (processRun allFailWorld).1) ∧
    Event.generateReply ∉ (processRun allFailWorld).1 ∧
    (∀ t b, Event.send t b ∉ (processRun allFailWorld).1) :=
  all_attempts_fail_no_launch allFailWorld "user-42" rfl rfl rfl (fun _ _ => rfl)

lemma processRun_attempt_config (w : World) :
    ∀ i cfg, Event.constructAttempt i cfg ∈ (processRun w).1 → cfg = goviConfig := by
  intro i cfg h
  rcases henv : checkEnvList w.env required_env_vars with e | u
  · simp [processRun, henv] at h
  · cases u
    rcases hc : w.connectResult with msg | u2
    · simp [processRun, henv, entrypoint, hc] at h
    · cases u2
      rcases hwr : w.waitResult with msg | pid0
      · simp [processRun, henv, entrypoint, hc, hwr] at h
      · rcases hm : modelRetry w.construct (List.range 3) with ⟨mr, res⟩
        have hmr : ∀ j c2, Event.constructAttempt j c2 ∈ mr → c2 = goviConfig := by
          intro j c2 hj
          exact modelRetry_config w.construct (List.range 3) j c2 (by rw [hm]; exact hj)
        rcases res with cause | m
        · simp [processRun, henv, entrypoint, hc, hwr, run_multimodal_agent,
            hm] at h
          exact hmr i cfg h
        · simp [processRun, henv, entrypoint, hc, hwr, run_multimodal_agent,
            hm] at h
          exact hmr i cfg h

/-- C8: within one job, every pair of model-construction attempts is given
configuration of identical content — same instructions, voice, temperature, model
identifier and turn-detection policy; no attempt observes a partially-mutated
config from a prior failed attempt. -/
theorem retry_config_identical (w : World) (i j : ℕ)
    (cfg₁ cfg₂ : RealtimeModelConfig)
    (hi : Event.constructAttempt i cfg₁ ∈ (processRun w).1)
    (hj : Event.constructAttempt j cfg₂ ∈ (processRun w).1) :
    cfg₁ = cfg₂ ∧ cfg₁.instructions = cfg₂.instructions ∧
    cfg₁.voice = cfg₂.voice ∧ cfg₁.temperature = cfg₂.temperature ∧
    cfg₁.model = cfg₂.model ∧ cfg₁.turn_detection = cfg₂.turn_detection := by
  have h1 := processRun_attempt_config w i cfg₁ hi
  have h2 := processRun_attempt_config w j cfg₂ hj
  subst h1
  subst h2
  exact ⟨rfl, rfl, rfl, rfl, rfl, rfl⟩

/-- Witness for `retry_config_identical`: the two attempts made in the end-to-end
scenario world (the constructor fails once, then succeeds) both carry the same
configuration. -/
theorem retry_config_identical_witness :
    goviConfig = goviConfig ∧ goviConfig.instructions = goviConfig.instructions ∧
    goviConfig.voice = goviConfig.voice ∧
    goviConfig.temperature = goviConfig.temperature ∧
    goviConfig.model = goviConfig.model ∧
    goviConfig.turn_detection = goviConfig.turn_detection :=
  retry_config_identical scenarioWorld 0 1 goviConfig goviConfig
    (by
      have hm := modelRetry_shape_f0s1 oneFailConstruct
        "transient provisioning failure" rfl rfl
      have henv : checkEnvList scenarioWorld.env required_env_vars =
          Except.ok () := rfl
      have hcon : scenarioWorld.connectResult = Except.ok () := rfl
      have hwr : scenarioWorld.waitResult = Except.ok "user-42" := rfl
      have hcs : scenarioWorld.construct = oneFailConstruct := rfl
      simp [processRun, henv, entrypoint, hcon, hwr, run_multimodal_agent, hcs, hm])
    (by
      have hm := modelRetry_shape_f0s1 oneFailConstruct
        "transient provisioning failure" rfl rfl
      have henv : checkEnvList scenarioWorld.env required_env_vars =
          Except.ok () := rfl
      have hcon : scenarioWorld.connectResult = Except.ok () := rfl
      have hwr : scenarioWorld.waitResult = Except.ok "user-42" := rfl
      have hcs : scenarioWorld.construct = oneFailConstruct := rfl
      simp [processRun, henv, entrypoint, hcon, hwr, run_multimodal_agent, hcs, hm])

lemma no_sleep_after_split {x : Event} {tr P S : List Event}
    (htr : tr = P ++ x :: S) (hP : x ∉ P) (hS : x ∉ S)
    (hsleep : ∀ d, Event.sleep d ∉ S) :
    ∀ l₁ l₂, tr = l₁ ++ x :: l₂ → ∀ d, Event.sleep d ∉ l₂ := by
  intro l₁ l₂ heq d hd
  have hsplit := split_eq_of_unique x P l₁ S l₂ hP hS (htr.symm.trans heq)
  exact hsleep d (hsplit.2.symm ▸ hd)

lemma no_sleep_after_absent {x : Event} {tr : List Event} (hx : x ∉ tr) :
    ∀ l₁ l₂, tr = l₁ ++ x :: l₂ → ∀ d, Event.sleep d ∉ l₂ := by
  intro l₁ l₂ heq d _
  refine absurd ?_ hx
  rw [heq]
  exact List.mem_append_right l₁ (List.mem_cons_self x l₂)

/-- C9: between any failed non-final initialization attempt and the next attempt,
the initializer logs a warning carrying the failure cause and the (1-based)
attempt index and then waits exactly 1 second — the same fixed interval every
time, with no exponential growth and no jitter (every sleep in the trace has
duration 1, and sleeps and warnings are in bijection) — and no backoff wait occurs
after the successful attempt or after the final (third) attempt. -/
theorem fixed_backoff (construct : ℕ → Option String) (pid : String) :
    (∀ d, Event.sleep d ∈ (run_multimodal_agent construct pid).1 → d = 1) ∧
    countSleeps (run_multimodal_agent construct pid).1 =
      countWarnings (run_multimodal_agent construct pid).1 ∧
    (∀ i e, i < 2 → (∀ j, j < i → (construct j).isSome) → construct i = some e →
      List.IsInfix [Event.constructAttempt i goviConfig, Event.logWarning (i + 1) e,
        Event.sleep 1, Event.constructAttempt (i + 1) goviConfig]
        (run_multimodal_agent construct pid).1) ∧
    (∀ l₁ l₂, (run_multimodal_agent construct pid).1 =
        l₁ ++ Event.modelReady :: l₂ → ∀ d, Event.sleep d ∉ l₂) ∧
    (∀ l₁ l₂ cfg, (run_multimodal_agent construct pid).1 =
        l₁ ++ Event.constructAttempt 2 cfg :: l₂ → ∀ d, Event.sleep d ∉ l₂) := by
  rcases h0 : construct 0 with _ | e0
  · have htr : (run_multimodal_agent construct pid).1 =
        [Event.logInfo "Initializing multimodal agent",
         Event.constructAttempt 0 goviConfig, Event.modelReady,
         Event.chatAppend "assistant" seedChatText,
         Event.agentCreated [("assistant", seedChatText)], Event.agentStart pid,
         Event.generateReply,
         Event.logInfo "Multimodal agent initialized and started successfully"] := by
      simp [run_multimodal_agent, modelRetry_shape_s0 construct h0]
    refine ⟨?_, ?_, ?_, ?_, ?_⟩
    · intro d hd
      rw [htr] at hd
      simp at hd
    · rw [htr]
      rfl
    · intro i e hi hprev he
      interval_cases i
      · rw [h0] at he
        exact Option.noConfusion he
      · have hp := hprev 0 (by omega)
        rw [h0] at hp
        simp at hp
    · have hsp : (run_multimodal_agent construct pid).1 =
          [Event.logInfo "Initializing multimodal agent",
           Event.constructAttempt 0 goviConfig] ++ Event.modelReady ::
          [Event.chatAppend "assistant" seedChatText,
           Event.agentCreated [("assistant", seedChatText)], Event.agentStart pid,
           Event.generateReply,
           Event.logInfo "Multimodal agent initialized and started successfully"] := by
        rw [htr]
        rfl
      exact no_sleep_after_split hsp (by simp) (by simp) (by intro d; simp)
    · intro l₁ l₂ cfg heq d _
      have hx : Event.constructAttempt 2 cfg ∈ (run_multimodal_agent construct pid).1 := by
        rw [heq]
        exact List.mem_append_right l₁ (List.mem_cons_self _ l₂)
      rw [htr] at hx
      simp at hx
  · rcases h1 : construct 1 with _ | e1
    · have htr : (run_multimodal_agent construct pid).1 =
          [Event.logInfo "Initializing multimodal agent",
           Event.constructAttempt 0 goviConfig, Event.logWarning 1 e0, Event.sleep 1,
           Event.constructAttempt 1 goviConfig, Event.modelReady,
           Event.chatAppend "assistant" seedChatText,
           Event.agentCreated [("assistant", seedChatText)], Event.agentStart pid,
           Event.generateReply,
           Event.logInfo "Multimodal agent initialized and started successfully"] := by
        simp [run_multimodal_agent, modelRetry_shape_f0s1 construct e0 h0 h1]
      refine ⟨?_, ?_, ?_, ?_, ?_⟩
      · intro d hd
        rw [htr] at hd
        simp at hd
        exact hd
      · rw [htr]
        rfl
      · intro i e hi hprev he
        interval_cases i
        · rw [h0] at he
          have he' := Option.some.inj he
          subst he'
          exact ⟨[Event.logInfo "Initializing multimodal agent"],
            [Event.modelReady, Event.chatAppend "assistant" seedChatText,
             Event.agentCreated [("assistant", seedChatText)], Event.agentStart pid,
             Event.generateReply,
             Event.logInfo "Multimodal agent initialized and started successfully"],
            by rw [htr]; rfl⟩
        · rw [h1] at he
          exact Option.noConfusion he
      · have hsp : (run_multimodal_agent construct pid).1 =
            [Event.logInfo "Initializing multimodal agent",
             Event.constructAttempt 0 goviConfig, Event.logWarning 1 e0,
             Event.sleep 1, Event.constructAttempt 1 goviConfig] ++
            Event.modelReady ::
            [Event.chatAppend "assistant" seedChatText,
             Event.agentCreated [("assistant", seedChatText)], Event.agentStart pid,
             Event.generateReply,
             Event.logInfo "Multimodal agent initialized and started successfully"] := by
          rw [htr]
          rfl
        exact no_sleep_after_split hsp (by simp) (by simp) (by intro d; simp)
      · intro l₁ l₂ cfg heq d _
        have hx : Event.constructAttempt 2 cfg ∈ (run_multimodal_agent construct pid).1 := by
          rw [heq]
          exact List.mem_append_right l₁ (List.mem_cons_self _ l₂)
        rw [htr] at hx
        simp at hx
    · rcases h2 : construct 2 with _ | e2
      · have htr : (run_multimodal_agent construct pid).1 =
            [Event.logInfo "Initializing multimodal agent",
             Event.constructAttempt 0 goviConfig, Event.logWarning 1 e0, Event.sleep 1,
             Event.constructAttempt 1 goviConfig, Event.logWarning 2 e1, Event.sleep 1,
             Event.constructAttempt 2 goviConfig, Event.modelReady,
             Event.chatAppend "assistant" seedChatText,
             Event.agentCreated [("assistant", seedChatText)], Event.agentStart pid,
             Event.generateReply,
             Event.logInfo "Multimodal agent initialized and started successfully"] := by
          simp [run_multimodal_agent, modelRetry_shape_f01s2 construct e0 e1 h0 h1 h2]
        refine ⟨?_, ?_, ?_, ?_, ?_⟩
        · intro d hd
          rw [htr] at hd
          simp at hd
          exact hd
        · rw [htr]
          rfl
        · intro i e hi hprev he
          interval_cases i
          · rw [h0] at he
            have he' := Option.some.inj he
            subst he'
            exact ⟨[Event.logInfo "Initializing multimodal agent"],
              [Event.logWarning 2 e1, Event.sleep 1,
               Event.constructAttempt 2 goviConfig, Event.modelReady,
               Event.chatAppend "assistant" seedChatText,
               Event.agentCreated [("assistant", seedChatText)], Event.agentStart pid,
               Event.generateReply,
               Event.logInfo "Multimodal agent initialized and started successfully"],
              by rw [htr]; rfl⟩
          · rw [h1] at he
            have he' := Option.some.inj he
            subst he'
            exact ⟨[Event.logInfo "Initializing multimodal agent",
               Event.constructAttempt 0 goviConfig, Event.logWarning 1 e0,
               Event.sleep 1],
              [Event.modelReady, Event.chatAppend "assistant" seedChatText,
               Event.agentCreated [("assistant", seedChatText)], Event.agentStart pid,
               Event.generateReply,
               Event.logInfo "Multimodal agent initialized and started successfully"],
              by rw [htr]; rfl⟩
        · have hsp : (run_multimodal_agent construct pid).1 =
              [Event.logInfo "Initializing multimodal agent",
               Event.constructAttempt 0 goviConfig, Event.logWarning 1 e0,
               Event.sleep 1, Event.constructAttempt 1 goviConfig,
               Event.logWarning 2 e1, Event.sleep 1,
               Event.constructAttempt 2 goviConfig] ++ Event.modelReady ::
              [Event.chatAppend "assistant" seedChatText,
               Event.agentCreated [("assistant", seedChatText)], Event.agentStart pid,
               Event.generateReply,
               Event.logInfo "Multimodal agent initialized and started successfully"] := by
            rw [htr]
            rfl
          exact no_sleep_after_split hsp (by simp) (by simp) (by intro d; simp)
        · intro l₁ l₂ cfg heq
          have hx : Event.constructAttempt 2 cfg ∈ (run_multimodal_agent construct pid).1 := by
            rw [heq]
            exact List.mem_append_right l₁ (List.mem_cons_self _ l₂)
          rw [htr] at hx
          simp at hx
          subst hx
          have hsp : (run_multimodal_agent construct pid).1 =
              [Event.logInfo "Initializing multimodal agent",
               Event.constructAttempt 0 goviConfig, Event.logWarning 1 e0,
               Event.sleep 1, Event.constructAttempt 1 goviConfig,
               Event.logWarning 2 e1, Event.sleep 1] ++
              Event.constructAttempt 2 goviConfig ::
              [Event.modelReady, Event.chatAppend "assistant" seedChatText,
               Event.agentCreated [("assistant", seedChatText)], Event.agentStart pid,
               Event.generateReply,
               Event.logInfo "Multimodal agent initialized and started successfully"] := by
            rw [htr]
            rfl
          exact no_sleep_after_split hsp (by simp) (by simp) (by intro d; simp)
            l₁ l₂ heq
      · have htr : (run_multimodal_agent construct pid).1 =
            [Event.logInfo "Initializing multimodal agent",
             Event.constructAttempt 0 goviConfig, Event.logWarning 1 e0, Event.sleep 1,
             Event.constructAttempt 1 goviConfig, Event.logWarning 2 e1, Event.sleep 1,
             Event.constructAttempt 2 goviConfig,
             Event.logError ("Failed to initialize MultimodalAgent: " ++ e2)] := by
          simp [run_multimodal_agent, modelRetry_shape_f012 construct e0 e1 e2 h0 h1 h2]
        refine ⟨?_, ?_, ?_, ?_, ?_⟩
        · intro d hd
          rw [htr] at hd
          simp at hd
          exact hd
        · rw [htr]
          rfl
        · intro i e hi hprev he
          interval_cases i
          · rw [h0] at he
            have he' := Option.some.inj he
            subst he'
            exact ⟨[Event.logInfo "Initializing multimodal agent"],
              [Event.logWarning 2 e1, Event.sleep 1,
               Event.constructAttempt 2 goviConfig,
               Event.logError ("Failed to initialize MultimodalAgent: " ++ e2)],
              by rw [htr]; rfl⟩
          · rw [h1] at he
            have he' := Option.some.inj he
            subst he'
            exact ⟨[Event.logInfo "Initializing multimodal agent",
               Event.constructAttempt 0 goviConfig, Event.logWarning 1 e0,
               Event.sleep 1],
              [Event.logError ("Failed to initialize MultimodalAgent: " ++ e2)],
              by rw [htr]; rfl⟩
        · refine no_sleep_after_absent ?_
          rw [htr]
          simp
        · intro l₁ l₂ cfg heq
          have hx : Event.constructAttempt 2 cfg ∈ (run_multimodal_agent construct pid).1 := by
            rw [heq]
            exact List.mem_append_right l₁ (List.mem_cons_self _ l₂)
          rw [htr] at hx
          simp at hx
          subst hx
          have hsp : (run_multimodal_agent construct pid).1 =
              [Event.logInfo "Initializing multimodal agent",
               Event.constructAttempt 0 goviConfig, Event.logWarning 1 e0,
               Event.sleep 1, Event.constructAttempt 1 goviConfig,
               Event.logWarning 2 e1, Event.sleep 1] ++
              Event.constructAttempt 2 goviConfig ::
              [Event.logError ("Failed to initialize MultimodalAgent: " ++ e2)] := by
            rw [htr]
            rfl
          exact no_sleep_after_split hsp (by simp) (by simp) (by intro d; simp)
            l₁ l₂ heq

/-- Witness for `fixed_backoff` at the fail-once constructor: the trace contains the
attempt-0 failure block (warning with cause and shown index 1, then a 1-second
sleep, then attempt 1), and sleeps equal warnings in number. -/
theorem fixed_backoff_witness :
    List.IsInfix [Event.constructAttempt 0 goviConfig,
      Event.logWarning 1 "transient provisioning failure", Event.sleep 1,
      Event.constructAttempt 1 goviConfig]
      (run_multimodal_agent oneFailConstruct "user-42").1 ∧
    countSleeps (run_multimodal_agent oneFailConstruct "user-42").1 =
      countWarnings (run_multimodal_agent oneFailConstruct "user-42").1 :=
  ⟨(fixed_backoff oneFailConstruct "user-42").2.2.1 0
      "transient provisioning failure" (by omega)
      (fun j hj => absurd hj (Nat.not_lt_zero j)) rfl,
    (fixed_backoff oneFailConstruct "user-42").2.1⟩

/-- C10: on every success path, the seed chat context passed to the conversation
session contains exactly one message, whose role is "assistant"; the message is
appended after model initialization succeeds and before the session starts, and
the session is always constructed with exactly this one-message context. -/
theorem seed_chat_single_message (w : World)
    (h : (processRun w).2 = Except.ok ()) :
    (∀ chat, Event.agentCreated chat ∈ (processRun w).1 →
      chat = [("assistant", seedChatText)] ∧ chat.length = 1 ∧
      ∀ m ∈ chat, m.1 = "assistant") ∧
    Event.agentCreated [("assistant", seedChatText)] ∈ (processRun w).1 ∧
    (∀ n r t, (processRun w).1[n]? = some (Event.chatAppend r t) →
      Event.modelReady ∈ (processRun w).1.take n) ∧
    (∀ n p, (processRun w).1[n]? = some (Event.agentStart p) →
      Event.agentCreated [("assistant", seedChatText)] ∈ (processRun w).1.take n) := by
  rcases henv : checkEnvList w.env required_env_vars with e | u
  · simp [processRun, henv] at h
  · cases u
    rcases hc : w.connectResult with msg | u2
    · simp [processRun, henv, entrypoint, hc] at h
    · cases u2
      rcases hwr : w.waitResult with msg | pid0
      · simp [processRun, henv, entrypoint, hc, hwr] at h
      · rcases hm : modelRetry w.construct (List.range 3) with ⟨mr, res⟩
        rcases res with cause | m
        · simp [processRun, henv, entrypoint, hc, hwr, run_multimodal_agent,
            hm] at h
        · have hnoAg : ∀ chat, Event.agentCreated chat ∉ mr := by
            intro chat
            have h7 := @not_mem_modelRetry w.construct (List.range 3)
              (Event.agentCreated chat) rfl
            rwa [hm] at h7
          have hnoCh : ∀ r t, Event.chatAppend r t ∉ mr := by
            intro r t
            have h7 := @not_mem_modelRetry w.construct (List.range 3)
              (Event.chatAppend r t) rfl
            rwa [hm] at h7
          have hnoSt : ∀ p, Event.agentStart p ∉ mr := by
            intro p
            have h7 := @not_mem_modelRetry w.construct (List.range 3)
              (Event.agentStart p) rfl
            rwa [hm] at h7
          have hready : Event.modelReady ∈ mr := by
            have h6 := modelRetry_ok_ready w.construct (List.range 3) m (by rw [hm])
            rwa [hm] at h6
          have htrA : (processRun w).1 =
              ([Event.logInfo ("Connecting to room " ++ w.roomName),
                Event.connectCall, Event.connectOk,
                Event.logInfo "Waiting for participant...", Event.waitCall,
                Event.participantJoined pid0,
                Event.logInfo ("Participant " ++ pid0 ++ " joined, starting agent..."),
                Event.logInfo "Initializing multimodal agent"] ++ mr) ++
              Event.chatAppend "assistant" seedChatText ::
              [Event.agentCreated [("assistant", seedChatText)],
               Event.agentStart pid0, Event.generateReply,
               Event.logInfo "Multimodal agent initialized and started successfully",
               Event.logInfo "Agent started successfully"] := by
            simp [processRun, henv, entrypoint, hc, hwr, run_multimodal_agent, hm]
          have htrB : (processRun w).1 =
              (([Event.logInfo ("Connecting to room " ++ w.roomName),
                 Event.connectCall, Event.connectOk,
                 Event.logInfo "Waiting for participant...", Event.waitCall,
                 Event.participantJoined pid0,
                 Event.logInfo ("Participant " ++ pid0 ++ " joined, starting agent..."),
                 Event.logInfo "Initializing multimodal agent"] ++ mr) ++
               [Event.chatAppend "assistant" seedChatText,
                Event.agentCreated [("assistant", seedChatText)]]) ++
              Event.agentStart pid0 ::
              [Event.generateReply,
               Event.logInfo "Multimodal agent initialized and started successfully",
               Event.logInfo "Agent started successfully"] := by
            simp [processRun, henv, entrypoint, hc, hwr, run_multimodal_agent, hm]
          refine ⟨?_, ?_, ?_, ?_⟩
          · intro chat hcr
            rw [htrA] at hcr
            simp [hnoAg chat] at hcr
            subst hcr
            refine ⟨rfl, rfl, ?_⟩
            intro m hmem
            simp at hmem
            rw [hmem]
          · rw [htrA]
            simp
          · intro n r t hn
            rw [htrA] at hn ⊢
            refine mem_take_of_getElem_append ?_ ?_ n hn
            · simp [hnoCh r t]
            · simp [hready]
          · intro n p hn
            rw [htrB] at hn ⊢
            refine mem_take_of_getElem_append ?_ ?_ n hn
            · simp [hnoSt p]
            · simp

set_option maxRecDepth 4096 in
/-- Witness for `seed_chat_single_message` on the healthy world: the one-message
assistant context is created, and the chat append at index 10 is preceded by the
model-ready event. -/
theorem seed_chat_single_message_witness :
    Event.agentCreated [("assistant", seedChatText)] ∈ (processRun goodWorld).1 ∧
    Event.modelReady ∈ (processRun goodWorld).1.take 10 :=
  have h := seed_chat_single_message goodWorld rfl
  ⟨h.2.1, h.2.2.1 10 "assistant" seedChatText (by decide)⟩

end Govi
